import Mathlib

/-!
Shallow embedding of the LoveBridge serverless backend (translation and
speech-to-text handlers, admin endpoint, manifest endpoint) together with
the front-end translation composite, and theorems checking the
specification's claims against those definitions.

External HTTP calls (OpenRouter, OpenAI Whisper, Hugging Face), base64
decoding and the floating-point audio-intensity statistic are modelled as
parameters (oracles): the embedded code sequences around them exactly as
the source does.  JavaScript numbers that the claims touch are integers
here; `Math.random()*n` floored is modelled by an arbitrary draw `k % n`,
which ranges over the same index set.
-/

set_option maxHeartbeats 1000000

/-- A JSON-like value, covering every response body the handlers build. -/
inductive Json where
  | str (s : String)
  | num (n : Int)
  | bool (b : Bool)
  | rat (q : ℚ)
  | obj (fields : List (String × Json))
  | arr (elems : List Json)
  | null

/-- Field lookup in a JSON object (first binding wins), `none` otherwise. -/
def Json.getField : Json → String → Option Json
  | .obj fields, k => fields.lookup k
  | _, _ => none

/-- An HTTP response: status code, headers set on it, JSON body
(`Json.null` for a bare `res.end()`). -/
structure HttpResponse where
  status : Nat
  headers : List (String × String)
  body : Json

namespace Api

/-- One entry of the in-memory `rateLimitStore` map: request count and the
timestamp (ms) at which the current 60-second window expires. -/
structure RateLimitEntry where
  count : Nat
  resetTime : Nat
deriving DecidableEq

/-- The `rateLimitStore` map, keyed by caller IP, as an association list. -/
def RLStore : Type := List (String × RateLimitEntry)

/-- `rateLimitStore.get(ip)`. -/
def RLStore.lookup (s : RLStore) (key : String) : Option RateLimitEntry :=
  List.lookup key s

/-- `rateLimitStore.set(ip, e)`: replace any previous binding. -/
def RLStore.set (s : RLStore) (key : String) (e : RateLimitEntry) : RLStore :=
  (key, e) :: List.filter (fun p => p.1 ≠ key) s

/-- The 1-minute window, in milliseconds (`windowMs = 60 * 1000`). -/
def windowMs : Nat := 60 * 1000

/-- The per-minute rate-limit gate shared (verbatim, up to the threshold
and the error message) by `/api/translate` and `/api/speech-to-text`:
returns the updated store and, when the request is rejected, the 429
status/body pair built from `Math.ceil((resetTime - now) / 1000)`.
Note that the count is incremented even on a rejected request, as the
source mutates the stored entry before comparing it to the threshold. -/
def rateLimitGate (maxRequests : Nat) (errMsg : String) (store : RLStore)
    (userIP : String) (now : Nat) : RLStore × Option (Nat × Json) :=
  match store.lookup userIP with
  | none => (store.set userIP ⟨1, now + windowMs⟩, none)
  | some userLimit =>
    if now > userLimit.resetTime then
      (store.set userIP ⟨1, now + windowMs⟩, none)
    else
      let e : RateLimitEntry := ⟨userLimit.count + 1, userLimit.resetTime⟩
      if e.count > maxRequests then
        (store.set userIP e,
         some (429, Json.obj
           [("error", .str errMsg),
            ("retryAfter", .num ((userLimit.resetTime - now + 999) / 1000 : Nat))]))
      else
        (store.set userIP e, none)

/-- Run a sequence of requests from a single caller through the gate,
returning the per-request outcomes and the final store. -/
def runGate (maxRequests : Nat) (errMsg : String) (key : String) :
    List Nat → RLStore → List (Option (Nat × Json)) × RLStore
  | [], st => ([], st)
  | t :: ts, st =>
    let step := rateLimitGate maxRequests errMsg st key t
    let rest := runGate maxRequests errMsg key ts step.1
    (step.2 :: rest.1, rest.2)

/-- The `dailyUsage` singleton of `/api/translate`. -/
structure DailyUsage where
  translations : Nat
  lastReset : String
  maxDailyTranslations : Nat
deriving DecidableEq

/-- The lazy daily reset of `/api/translate`: zero the counter exactly when
the stored date string differs from today's. -/
def resetDailyUsage (d : DailyUsage) (today : String) : DailyUsage :=
  if d.lastReset ≠ today then
    { d with translations := 0, lastReset := today }
  else d

/-- JavaScript truthiness of an optional string field: absent, `null` and
the empty string are falsy. -/
def truthyStr : Option String → Bool
  | none => false
  | some s => s ≠ ""

/-- The `dailySpeechUsage` singleton of `/api/speech-to-text`. -/
structure DailySpeechUsage where
  requests : Nat
  lastReset : String
  maxDailySpeechRequests : Nat
deriving DecidableEq

/-- The lazy daily reset of `/api/speech-to-text`. -/
def resetDailySpeech (d : DailySpeechUsage) (today : String) : DailySpeechUsage :=
  if d.lastReset ≠ today then
    { d with requests := 0, lastReset := today }
  else d

namespace Translate

/-- JavaScript `\w` word characters `[A-Za-z0-9_]` (`Char.isAlphanum` is
ASCII-only, matching the regex class). -/
def isWordChar (c : Char) : Bool := c.isAlphanum || c = '_'

/-- Whether the character at index `i` of `hay` is a word character;
out-of-range positions count as non-word, as at the ends of a string. -/
def wordCharAt (hay : List Char) (i : Nat) : Bool :=
  isWordChar (hay.getD i ' ')

/-- Plain (unanchored) occurrence of `pat` anywhere in `hay`, as tested by
the regexes without `\b` anchors. -/
def containsPat (hay pat : List Char) : Bool :=
  (List.range (hay.length + 1)).any fun i => pat.isPrefixOf (hay.drop i)

/-- Occurrence of `pat` in `hay` flanked by `\b` word boundaries on both
sides, as tested by the `\btoken\b`-style regexes. -/
def wordBounded (hay pat : List Char) : Bool :=
  (List.range (hay.length + 1)).any fun i =>
    pat.isPrefixOf (hay.drop i) &&
    (i == 0 || !wordCharAt hay (i - 1)) &&
    !wordCharAt hay (i + pat.length)

/-- The expansions of the optional `[_\s]` separator in the
`\bapi[_\s]?key\b` pattern (`\s` restricted to ASCII whitespace). -/
def apiKeySeps : List (List Char) :=
  [[], ['_'], [' '], ['\t'], ['\n'], ['\r'], ['\x0B'], ['\x0C']]

/-- The content filter: `suspiciousPatterns.some(p => p.test(text))`.
The `/i` flag is modelled by lowering the haystack character-wise (the
patterns are already lowercase, and lowering preserves word-character
status). -/
def suspiciousText (text : String) : Bool :=
  let hay := text.toList.map Char.toLower
  (["hack", "exploit", "bypass", "attack", "malicious"].any fun p =>
    containsPat hay p.toList) ||
  (apiKeySeps.any fun sep =>
    wordBounded hay (['a', 'p', 'i'] ++ sep ++ ['k', 'e', 'y'])) ||
  wordBounded hay "token".toList ||
  wordBounded hay "password".toList

/-- Outcome of the upstream OpenRouter fetch: `netError` covers a thrown
fetch error and a non-2xx status (both land in the catch block); `ok c`
is a 2xx response whose extracted content
(`data.choices[0]?.message?.content || ''`) is `c`. -/
inductive UpstreamResult where
  | netError
  | ok (content : String)

/-- The mode-specific prompt construction of `/api/translate`. -/
def buildPrompt (mode text : String) : String :=
  if mode = "toJapanese" then
    "Translate this mixed language text to natural, romantic Japanese. The text may contain English, Cantonese, or Japanese mixed together. Preserve the emotional tone and intimate meaning:\n\n\"" ++ text ++ "\"\n\nJapanese translation:"
  else if mode = "toCantonese" then
    "Translate this Japanese text to natural, romantic Cantonese. Preserve the emotional tone and intimate meaning:\n\n\"" ++ text ++ "\"\n\nCantonese translation:"
  else if mode = "toEnglish" then
    "Translate this Japanese text to natural, romantic English. Preserve the emotional tone and intimate meaning:\n\n\"" ++ text ++ "\"\n\nEnglish translation:"
  else ""

/-- A `/api/translate` request: method, caller key (the forwarded IP) and
the two JSON body fields. -/
structure Req where
  method : String
  ip : String
  text : Option String
  mode : Option String

/-- The module-level mutable state of `/api/translate`. -/
structure State where
  rateLimitStore : RLStore
  dailyUsage : DailyUsage

/-- The 429 message of the translate rate limiter. -/
def rateLimitMsg : String :=
  "Rate limit exceeded. Please wait before making more requests."

/-- The `/api/translate` handler body (status and JSON body; the CORS
headers the source sets up front are attached by `Translate.handler`).
`OPENROUTER_API_KEY` and the upstream fetch are oracles; `now` is
`Date.now()` and `today` is `new Date().toDateString()`. -/
def translateCore (apiKeyEnv : Option String)
    (upstream : String → UpstreamResult)
    (st : State) (now : Nat) (today : String) (req : Req) :
    (Nat × Json) × State :=
  if req.method = "OPTIONS" then ((200, .null), st)
  else if req.method ≠ "POST" then
    ((405, .obj [("error", .str "Method not allowed")]), st)
  else
    match rateLimitGate 10 rateLimitMsg st.rateLimitStore req.ip now with
    | (rls, some resp) => (resp, { st with rateLimitStore := rls })
    | (rls, none) =>
      let st1 : State := { st with rateLimitStore := rls }
      if !truthyStr req.text || !truthyStr req.mode then
        ((400, .obj [("error", .str "Invalid input parameters")]), st1)
      else
        let text := req.text.getD ""
        let mode := req.mode.getD ""
        if text.length > 500 then
          ((400, .obj [("error", .str "Text too long. Maximum 500 characters.")]), st1)
        else if !(["toJapanese", "toCantonese", "toEnglish"].contains mode) then
          ((400, .obj [("error", .str "Invalid translation mode")]), st1)
        else if suspiciousText text then
          ((400, .obj [("error", .str "Content not allowed")]), st1)
        else
          let d0 := resetDailyUsage st1.dailyUsage today
          let d : DailyUsage := { d0 with translations := d0.translations + 1 }
          let st2 : State := { st1 with dailyUsage := d }
          if d.translations > d.maxDailyTranslations then
            ((429, .obj
              [("error", .str "Daily translation limit reached. Service will reset tomorrow."),
               ("dailyUsage", .num d.translations),
               ("maxDaily", .num d.maxDailyTranslations)]), st2)
          else if !truthyStr apiKeyEnv then
            ((500, .obj
              [("error", .str "OpenRouter API key not configured in environment variables"),
               ("success", .bool false)]), st2)
          else
            match upstream (buildPrompt mode text) with
            | .netError =>
              ((500, .obj [("error", .str "Translation failed"),
                           ("success", .bool false)]), st2)
            | .ok content =>
              ((200, .obj [("translation", .str content.trim),
                           ("success", .bool true)]), st2)

/-- The CORS headers `/api/translate` sets on every response. -/
def corsHeaders : List (String × String) :=
  [("Access-Control-Allow-Origin", "*"),
   ("Access-Control-Allow-Methods", "POST, OPTIONS"),
   ("Access-Control-Allow-Headers", "Content-Type, Authorization")]

/-- The full `/api/translate` handler: the headers set by `res.setHeader`
before any branch end up on whichever response the body produces. -/
def handler (apiKeyEnv : Option String) (upstream : String → UpstreamResult)
    (st : State) (now : Nat) (today : String) (req : Req) :
    HttpResponse × State :=
  let r := translateCore apiKeyEnv upstream st now today req
  ({ status := r.1.1, headers := corsHeaders, body := r.1.2 }, r.2)

end Translate

/-- `pool[Math.floor(Math.random() * pool.length)]`: the floored random
draw is modelled by an arbitrary natural `k` reduced mod the pool size,
which ranges over exactly the indices the source can produce. -/
def selectPhrase (pool : List String) (k : Nat) : String :=
  pool.getD (k % pool.length) ""

namespace SpeechOld

/-- The short-audio phrase pool of `speech-to-text-old.js`. -/
def shortPhrases : List String :=
  ["Hello", "Hi", "Yes", "No", "OK", "Thanks",
   "こんにちは", "はい", "いいえ", "ありがとう",
   "你好", "係", "唔係", "多謝"]

/-- The medium-audio phrase pool of `speech-to-text-old.js`. -/
def mediumPhrases : List String :=
  ["How are you doing?", "I love you", "What\x27s up?", "Good morning",
   "元気ですか？", "愛してる", "どうしたの？", "おはよう",
   "你好嗎？", "我愛你", "做緊乜嘢？", "早晨"]

/-- The long-audio phrase pool of `speech-to-text-old.js`. -/
def longPhrases : List String :=
  ["I was thinking about you today and wanted to call",
   "How was your day? I hope everything went well",
   "今日のことを考えていて、電話をかけたくなった",
   "今日はどうでしたか？うまくいったことを願っています",
   "我今日諗住你，所以想打電話俾你",
   "你今日點樣？希望一切都順利"]

/-- The Heuristic demo stage of `speech-to-text-old.js`: bucket the audio
buffer by byte length (thresholds 50000 and 120000) and draw a phrase from
the bucket's pool. -/
def heuristicTranscription (audioLength k : Nat) : String :=
  if audioLength < 50000 then selectPhrase shortPhrases k
  else if audioLength < 120000 then selectPhrase mediumPhrases k
  else selectPhrase longPhrases k

/-- Outcome of the Hugging Face Whisper fetch: `failed` covers a thrown
error, a non-2xx status and a response without a `text` field; `ok t` is
a 2xx response carrying `text = t` (possibly blank, in which case the
handler still falls through to the heuristic). -/
inductive HFResult where
  | failed
  | ok (text : String)

/-- A `/api/speech-to-text` request (old secured revision). -/
structure Req where
  method : String
  authHeader : Option String
  ip : String
  audioData : Option String
  mimeType : Option String

/-- The module-level mutable state of `speech-to-text-old.js`. -/
structure State where
  rateLimitStore : RLStore
  dailySpeechUsage : DailySpeechUsage

/-- The 429 message of the speech rate limiter. -/
def speechRateLimitMsg : String :=
  "Speech rate limit exceeded. Please wait before recording again."

/-- The `speech-to-text-old.js` handler body.  Oracles: `hf` for the
Hugging Face call, `decodeBase64` for `Buffer.from(audioData, 'base64')`,
`k` for the random phrase draw, and `intensity` for the floating-point
`calculateAudioIntensity` statistic (only echoed inside `audioAnalysis`,
never used to pick the text). -/
def speechCore (apiSecret : String) (hf : HFResult)
    (decodeBase64 : String → List Nat) (k : Nat)
    (intensity : List Nat → Json)
    (st : State) (now : Nat) (today : String) (req : Req) :
    (Nat × Json) × State :=
  if req.method = "OPTIONS" then ((200, .null), st)
  else if req.method ≠ "POST" then
    ((405, .obj [("error", .str "Method not allowed"),
                 ("method", .str req.method)]), st)
  else if req.authHeader ≠ some ("Bearer " ++ apiSecret) then
    ((401, .obj [("error", .str "Unauthorized")]), st)
  else
    match rateLimitGate 5 speechRateLimitMsg st.rateLimitStore req.ip now with
    | (rls, some resp) => (resp, { st with rateLimitStore := rls })
    | (rls, none) =>
      let st1 : State := { st with rateLimitStore := rls }
      let d0 := resetDailySpeech st1.dailySpeechUsage today
      let d : DailySpeechUsage := { d0 with requests := d0.requests + 1 }
      let st2 : State := { st1 with dailySpeechUsage := d }
      if d.requests > d.maxDailySpeechRequests then
        ((429, .obj
          [("error", .str "Daily speech recognition limit reached. Please use text input or try again tomorrow."),
           ("dailyUsage", .num d.requests),
           ("maxDaily", .num d.maxDailySpeechRequests)]), st2)
      else if !truthyStr req.audioData then
        ((400, .obj [("error", .str "No audio data provided"),
                     ("success", .bool false)]), st2)
      else
        let audioBuffer := decodeBase64 (req.audioData.getD "")
        let fallThrough :=
          let audioLength := audioBuffer.length
          let transcription := heuristicTranscription audioLength k
          ((200, Json.obj
            [("text", .str transcription),
             ("success", .bool true),
             ("demo", .bool true),
             ("source", .str "smart-demo"),
             ("audioAnalysis", .obj
               [("audioLength", .num audioLength),
                ("audioIntensity", intensity audioBuffer)])]), st2)
        match hf with
        | .ok t =>
          if t.trim ≠ "" then
            ((200, .obj [("text", .str t.trim),
                         ("success", .bool true),
                         ("demo", .bool false),
                         ("source", .str "huggingface-whisper")]), st2)
          else fallThrough
        | .failed => fallThrough

/-- The CORS headers `speech-to-text-old.js` sets on every response. -/
def corsHeaders : List (String × String) :=
  [("Access-Control-Allow-Origin", "*"),
   ("Access-Control-Allow-Methods", "POST, OPTIONS"),
   ("Access-Control-Allow-Headers", "Content-Type, Authorization")]

/-- The full old-revision `/api/speech-to-text` handler with its headers. -/
def handler (apiSecret : String) (hf : HFResult)
    (decodeBase64 : String → List Nat) (k : Nat)
    (intensity : List Nat → Json)
    (st : State) (now : Nat) (today : String) (req : Req) :
    HttpResponse × State :=
  let r := speechCore apiSecret hf decodeBase64 k intensity st now today req
  ({ status := r.1.1, headers := corsHeaders, body := r.1.2 }, r.2)

end SpeechOld

namespace SpeechOpenAI

/-- The short-audio phrase pool of the OpenAI-variant handler. -/
def shortPhrases : List String :=
  ["Hi", "Yes", "No", "OK", "Hello", "Thanks"]

/-- The medium-audio phrase pool of the OpenAI-variant handler. -/
def mediumPhrases : List String :=
  ["How are you?", "I love you", "Good morning", "What\x27s up?",
   "I miss you", "How was your day?", "Are you free tonight?"]

/-- The long-audio phrase pool of the OpenAI-variant handler. -/
def longPhrases : List String :=
  ["Hey, I was just thinking about you and wanted to see how you\x27re doing",
   "I hope you\x27re having a great day, I can\x27t wait to see you later",
   "I was wondering if you\x27d like to grab dinner tonight, what do you think?"]

/-- The Heuristic demo stage of the OpenAI-variant handler (thresholds
30000 and 80000). -/
def heuristicTranscription (audioLength k : Nat) : String :=
  if audioLength < 30000 then selectPhrase shortPhrases k
  else if audioLength < 80000 then selectPhrase mediumPhrases k
  else selectPhrase longPhrases k

/-- Outcome of the OpenAI Whisper fetch: `failed` covers a thrown error
and a non-2xx status; `ok t` is a 2xx response whose extracted text
(`result.text || ''`) is `t` (a blank `t` falls through). -/
inductive OpenAIResult where
  | failed
  | ok (text : String)

/-- A request to the OpenAI-variant speech handler. -/
structure Req where
  method : String
  audioData : Option String
  mimeType : Option String

/-- The OpenAI-variant speech handler body.  The key-validity guard
`OPENAI_API_KEY && OPENAI_API_KEY !== 'your_openai_api_key_here'` decides
whether the real API is attempted at all. -/
def speechCore (apiKeyEnv : Option String) (openai : OpenAIResult)
    (decodeBase64 : String → List Nat) (k : Nat)
    (intensity : List Nat → Json) (req : Req) : Nat × Json :=
  if req.method = "OPTIONS" then (200, .null)
  else if req.method ≠ "POST" then
    (405, .obj [("error", .str "Method not allowed")])
  else if !truthyStr req.audioData then
    (400, .obj [("error", .str "No audio data provided"),
                ("success", .bool false)])
  else
    let audioBuffer := decodeBase64 (req.audioData.getD "")
    let keyValid := truthyStr apiKeyEnv && apiKeyEnv.getD "" ≠ "your_openai_api_key_here"
    let fallThrough :=
      let audioLength := audioBuffer.length
      let transcription := heuristicTranscription audioLength k
      (200, Json.obj
        [("text", .str transcription),
         ("success", .bool true),
         ("demo", .bool true),
         ("source", .str "intelligent-demo"),
         ("audioAnalysis", .obj
           [("audioLength", .num audioLength),
            ("intensity", intensity audioBuffer)])])
    if keyValid then
      match openai with
      | .ok t =>
        if t.trim ≠ "" then
          (200, .obj [("text", .str t.trim),
                      ("success", .bool true),
                      ("demo", .bool false),
                      ("source", .str "openai-whisper")])
        else fallThrough
      | .failed => fallThrough
    else fallThrough

/-- The CORS headers the OpenAI-variant handler sets on every response. -/
def corsHeaders : List (String × String) :=
  [("Access-Control-Allow-Origin", "*"),
   ("Access-Control-Allow-Methods", "POST, OPTIONS"),
   ("Access-Control-Allow-Headers", "Content-Type, Authorization")]

/-- The full OpenAI-variant speech handler with its headers. -/
def handler (apiKeyEnv : Option String) (openai : OpenAIResult)
    (decodeBase64 : String → List Nat) (k : Nat)
    (intensity : List Nat → Json) (req : Req) : HttpResponse :=
  let r := speechCore apiKeyEnv openai decodeBase64 k intensity req
  { status := r.1, headers := corsHeaders, body := r.2 }

end SpeechOpenAI

namespace Admin

/-- The admin-configurable daily ceilings inside `usageStats`. -/
structure DailyLimits where
  maxTranslations : Int
  maxSpeechRequests : Int
deriving DecidableEq

/-- The module-level `usageStats` object of the admin endpoint
(`estimatedCost` is a rational standing for the JS float accumulator). -/
structure UsageStats where
  totalTranslations : Nat
  totalSpeechRequests : Nat
  estimatedCost : ℚ
  lastReset : Nat
  dailyLimits : DailyLimits
deriving DecidableEq

/-- JSON serialization of `usageStats`, as echoed in POST responses. -/
def serializeStats (s : UsageStats) : Json :=
  .obj [("totalTranslations", .num s.totalTranslations),
        ("totalSpeechRequests", .num s.totalSpeechRequests),
        ("estimatedCost", .rat s.estimatedCost),
        ("lastReset", .num s.lastReset),
        ("dailyLimits", .obj
          [("maxTranslations", .num s.dailyLimits.maxTranslations),
           ("maxSpeechRequests", .num s.dailyLimits.maxSpeechRequests)])]

/-- JavaScript truthiness of an optional numeric body field: absent and
`0` are falsy, any other number is truthy (`if (maxTranslations) ...`). -/
def truthyInt : Option Int → Bool
  | none => false
  | some v => v ≠ 0

/-- An `/api/admin` request; the numeric body fields carry the value
`parseInt` would produce. -/
structure Req where
  method : String
  authHeader : Option String
  action : Option String
  maxTranslations : Option Int
  maxSpeechRequests : Option Int

/-- The `/api/admin` handler body.  The GET statistics body mixes in
floating-point figures (uptime hours, per-hour averages), so it is
supplied by the `snapshot` oracle; its status and state transition are
embedded exactly. -/
def adminCore (adminSecret : String) (snapshot : UsageStats → Nat → Json)
    (st : UsageStats) (now : Nat) (req : Req) : (Nat × Json) × UsageStats :=
  if req.method = "OPTIONS" then ((200, .null), st)
  else if req.authHeader ≠ some ("Bearer " ++ adminSecret) then
    ((401, .obj [("error", .str "Admin access required")]), st)
  else if req.method = "GET" then
    ((200, snapshot st now), st)
  else if req.method = "POST" then
    if req.action = some "reset" then
      let st' : UsageStats :=
        { totalTranslations := 0
          totalSpeechRequests := 0
          estimatedCost := 0
          lastReset := now
          dailyLimits := st.dailyLimits }
      ((200, .obj [("message", .str "Statistics reset successfully"),
                   ("usageStats", serializeStats st')]), st')
    else if req.action = some "updateLimits" then
      let l0 := st.dailyLimits
      let l1 : DailyLimits :=
        if truthyInt req.maxTranslations then
          { l0 with maxTranslations := req.maxTranslations.getD 0 }
        else l0
      let l2 : DailyLimits :=
        if truthyInt req.maxSpeechRequests then
          { l1 with maxSpeechRequests := req.maxSpeechRequests.getD 0 }
        else l1
      let st' : UsageStats := { st with dailyLimits := l2 }
      ((200, .obj [("message", .str "Limits updated successfully"),
                   ("usageStats", serializeStats st')]), st')
    else
      ((400, .obj [("error", .str "Invalid action")]), st)
  else
    ((405, .obj [("error", .str "Method not allowed")]), st)

/-- The CORS headers `/api/admin` sets on every response. -/
def corsHeaders : List (String × String) :=
  [("Access-Control-Allow-Origin", "*"),
   ("Access-Control-Allow-Methods", "GET, POST, OPTIONS"),
   ("Access-Control-Allow-Headers", "Content-Type, Authorization")]

/-- The full `/api/admin` handler with its headers. -/
def handler (adminSecret : String) (snapshot : UsageStats → Nat → Json)
    (st : UsageStats) (now : Nat) (req : Req) : HttpResponse × UsageStats :=
  let r := adminCore adminSecret snapshot st now req
  ({ status := r.1.1, headers := corsHeaders, body := r.1.2 }, r.2)

end Admin

namespace Manifest

/-- The hard-coded fallback manifest served when reading
`public/manifest.json` fails. -/
def fallbackManifest : Json :=
  .obj [("short_name", .str "LoveBridge"),
        ("name", .str "LoveBridge - Love Translation App"),
        ("description", .str "Real-time translation for couples"),
        ("start_url", .str "/"),
        ("display", .str "standalone"),
        ("theme_color", .str "#ff69b4"),
        ("background_color", .str "#1a1a2e"),
        ("orientation", .str "portrait"),
        ("scope", .str "/"),
        ("icons", .arr [])]

/-- The manifest endpoint body; `file` is the result of the
`fs.readFileSync` call (`none` when it throws). -/
def manifestCore (file : Option String) (method : String) : Nat × Json :=
  if method = "OPTIONS" then (200, .null)
  else
    match file with
    | some contents => (200, .str contents)
    | none => (200, fallbackManifest)

/-- The headers the manifest endpoint sets on every response. -/
def manifestHeaders : List (String × String) :=
  [("Access-Control-Allow-Origin", "*"),
   ("Content-Type", "application/json"),
   ("Cache-Control", "public, max-age=31536000")]

/-- The full manifest handler with its headers. -/
def handler (file : Option String) (method : String) : HttpResponse :=
  let r := manifestCore file method
  { status := r.1, headers := manifestHeaders, body := r.2 }

end Manifest

namespace SimpleTranslate

/-- A request to the unsecured translate variant (no auth, no quota). -/
structure Req where
  method : String
  ip : String
  text : Option String
  mode : Option String

/-- The unsecured translate variant: no CORS headers, no OPTIONS branch,
no rate limiting, no daily quota, no API-key guard; validation only
requires `text` and `mode` to be truthy. -/
def simpleCore (upstream : String → Translate.UpstreamResult) (req : Req) :
    Nat × Json :=
  if req.method ≠ "POST" then
    (405, .obj [("error", .str "Method not allowed")])
  else if !truthyStr req.text || !truthyStr req.mode then
    (400, .obj [("error", .str "Missing text or mode")])
  else
    let text := req.text.getD ""
    let mode := req.mode.getD ""
    match upstream (Translate.buildPrompt mode text) with
    | .netError =>
      (500, .obj [("error", .str "Translation failed"),
                  ("success", .bool false)])
    | .ok content =>
      (200, .obj [("translation", .str content.trim),
                  ("success", .bool true)])

/-- The full unsecured translate handler: it never calls `setHeader`, so
every response carries an empty header list. -/
def handler (upstream : String → Translate.UpstreamResult) (req : Req) :
    HttpResponse :=
  let r := simpleCore upstream req
  { status := r.1, headers := [], body := r.2 }

end SimpleTranslate

end Api

namespace Frontend

/-- `TranslationResponse` of `src/services/translationService.ts`. -/
structure TranslationResponse where
  original : String
  japanese : String
  cantonese : String
  english : String
deriving DecidableEq

/-- The two modes `processFullTranslation` accepts. -/
inductive FullMode where
  | toJapanese
  | toCantonese
deriving DecidableEq

/-- `TranslationService.processFullTranslation`, with `callSecureBackend`
(text, mode string) as an oracle: that function performs an HTTP call and,
on any failure, substitutes a demo string, so it always yields a string. -/
def processFullTranslation (callSecureBackend : String → String → String)
    (originalText : String) (mode : FullMode) : TranslationResponse :=
  match mode with
  | .toJapanese =>
    let japanese := callSecureBackend originalText "toJapanese"
    let cantonese := callSecureBackend japanese "toCantonese"
    { original := originalText
      japanese := japanese.trim
      cantonese := cantonese.trim
      english := originalText }
  | .toCantonese =>
    let cantonese := callSecureBackend originalText "toCantonese"
    let english := callSecureBackend originalText "toEnglish"
    { original := originalText
      japanese := originalText
      cantonese := cantonese.trim
      english := english.trim }

end Frontend

section Helpers

/-- Setting a key in the rate-limit store makes it the binding found. -/
theorem lookup_set (s : Api.RLStore) (key : String) (e : Api.RateLimitEntry) :
    (s.set key e).lookup key = some e := by
  simp [Api.RLStore.set, Api.RLStore.lookup, List.lookup]

/-- A phrase selected from a non-empty pool belongs to the pool. -/
theorem selectPhrase_mem (pool : List String) (k : Nat) (h : pool ≠ []) :
    Api.selectPhrase pool k ∈ pool := by
  have hlen : k % pool.length < pool.length :=
    Nat.mod_lt _ (List.length_pos.mpr h)
  unfold Api.selectPhrase
  rw [List.getD_eq_getElem?_getD, List.getElem?_eq_getElem hlen]
  exact List.getElem_mem hlen

/-- A phrase selected from a non-empty pool of non-blank phrases is not
the empty string. -/
theorem selectPhrase_ne_blank (pool : List String) (k : Nat) (h : pool ≠ [])
    (hne : ∀ s ∈ pool, s ≠ "") : Api.selectPhrase pool k ≠ "" :=
  hne _ (selectPhrase_mem pool k h)

/-- Every transcription the old-revision heuristic produces is non-empty. -/
theorem heuristicOld_ne_blank (len k : Nat) :
    Api.SpeechOld.heuristicTranscription len k ≠ "" := by
  unfold Api.SpeechOld.heuristicTranscription
  split
  · exact selectPhrase_ne_blank _ _ (by decide) (by decide)
  · split
    · exact selectPhrase_ne_blank _ _ (by decide) (by decide)
    · exact selectPhrase_ne_blank _ _ (by decide) (by decide)

/-- Every transcription the OpenAI-revision heuristic produces is
non-empty. -/
theorem heuristicOpenAI_ne_blank (len k : Nat) :
    Api.SpeechOpenAI.heuristicTranscription len k ≠ "" := by
  unfold Api.SpeechOpenAI.heuristicTranscription
  split
  · exact selectPhrase_ne_blank _ _ (by decide) (by decide)
  · split
    · exact selectPhrase_ne_blank _ _ (by decide) (by decide)
    · exact selectPhrase_ne_blank _ _ (by decide) (by decide)

/-- Running the gate over a concatenation of request sequences runs the
second sequence from the store the first one leaves behind. -/
theorem runGate_append (maxRequests : Nat) (errMsg key : String)
    (ts₁ ts₂ : List Nat) (st : Api.RLStore) :
    Api.runGate maxRequests errMsg key (ts₁ ++ ts₂) st
      = ((Api.runGate maxRequests errMsg key ts₁ st).1
          ++ (Api.runGate maxRequests errMsg key ts₂
               (Api.runGate maxRequests errMsg key ts₁ st).2).1,
         (Api.runGate maxRequests errMsg key ts₂
           (Api.runGate maxRequests errMsg key ts₁ st).2).2) := by
  induction ts₁ generalizing st with
  | nil => simp [Api.runGate]
  | cons t ts ih => simp [Api.runGate, ih]

/-- While the caller's entry stays within the current window and the
count stays at most the threshold, every request is allowed and the
count advances by exactly the number of requests made. -/
theorem runGate_under_threshold (maxRequests : Nat) (errMsg key : String)
    (r : Nat) : ∀ (ts : List Nat) (c : Nat) (st : Api.RLStore),
    st.lookup key = some ⟨c, r⟩ →
    (∀ t ∈ ts, t ≤ r) →
    c + ts.length ≤ maxRequests →
    (Api.runGate maxRequests errMsg key ts st).1
      = List.replicate ts.length none ∧
    (Api.runGate maxRequests errMsg key ts st).2.lookup key
      = some ⟨c + ts.length, r⟩ := by
  intro ts
  induction ts with
  | nil =>
    intro c st h1 _ _
    simpa [Api.runGate] using h1
  | cons t ts ih =>
    intro c st h1 h2 h3
    have hle : t ≤ r := h2 t (by simp)
    have hnt : ¬ (r < t) := by omega
    have hcnt : ¬ (maxRequests < c + 1) := by
      simp at h3
      omega
    have hstep : Api.rateLimitGate maxRequests errMsg st key t
        = (st.set key ⟨c + 1, r⟩, none) := by
      simp [Api.rateLimitGate, h1, hnt, hcnt]
    have hrec := ih (c + 1) (st.set key ⟨c + 1, r⟩) (lookup_set _ _ _)
      (fun u hu => h2 u (by simp [hu]))
      (by simp at h3 ⊢; omega)
    have harith : c + 1 + ts.length = c + (ts.length + 1) := by omega
    rw [harith] at hrec
    simp only [Api.runGate, hstep]
    exact ⟨by simp [hrec.1, List.replicate], by simpa using hrec.2⟩

end Helpers

/-- Claim C3: the daily usage counter is reset to 0 exactly once when the
stored date string differs from the current one (whatever the two strings
are, so regardless of how many days elapsed), and a request whose stored
date equals the current one performs no reset; applying the check twice on
the same day changes nothing further.  Both the translate and the speech
counters are covered. -/
theorem c3_daily_reset_once (d : Api.DailyUsage) (ds : Api.DailySpeechUsage)
    (today : String) :
    (d.lastReset ≠ today →
      Api.resetDailyUsage d today =
        { translations := 0, lastReset := today,
          maxDailyTranslations := d.maxDailyTranslations }) ∧
    (d.lastReset = today → Api.resetDailyUsage d today = d) ∧
    Api.resetDailyUsage (Api.resetDailyUsage d today) today
      = Api.resetDailyUsage d today ∧
    (ds.lastReset ≠ today →
      Api.resetDailySpeech ds today =
        { requests := 0, lastReset := today,
          maxDailySpeechRequests := ds.maxDailySpeechRequests }) ∧
    (ds.lastReset = today → Api.resetDailySpeech ds today = ds) ∧
    Api.resetDailySpeech (Api.resetDailySpeech ds today) today
      = Api.resetDailySpeech ds today := by
  refine ⟨fun h => by simp [Api.resetDailyUsage, h],
          fun h => by simp [Api.resetDailyUsage, h],
          ?_,
          fun h => by simp [Api.resetDailySpeech, h],
          fun h => by simp [Api.resetDailySpeech, h],
          ?_⟩
  · by_cases h : d.lastReset = today <;> simp [Api.resetDailyUsage, h]
  · by_cases h : ds.lastReset = today <;> simp [Api.resetDailySpeech, h]

/-- Witness for C3 at concrete inputs: a date change zeroes the counter
once, and a matching date leaves the counter untouched. -/
theorem c3_witness :
    Api.resetDailyUsage ⟨3, "Mon Jan 01 2024", 500⟩ "Tue Jan 02 2024"
      = ⟨0, "Tue Jan 02 2024", 500⟩ ∧
    Api.resetDailySpeech ⟨7, "Tue Jan 02 2024", 50⟩ "Tue Jan 02 2024"
      = ⟨7, "Tue Jan 02 2024", 50⟩ :=
  ⟨(c3_daily_reset_once ⟨3, "Mon Jan 01 2024", 500⟩ ⟨7, "Tue Jan 02 2024", 50⟩
      "Tue Jan 02 2024").1 (by decide),
   (c3_daily_reset_once ⟨3, "Mon Jan 01 2024", 500⟩ ⟨7, "Tue Jan 02 2024", 50⟩
      "Tue Jan 02 2024").2.2.2.2.1 rfl⟩

/-- Claim C4: in toJapanese mode, `processFullTranslation` returns the
original input verbatim as `english` (never re-translated), the first
translation's trimmed result as `japanese`, and the trimmed result of
chaining a second translation from the (untrimmed) Japanese as
`cantonese`. -/
theorem c4_english_verbatim (callSecureBackend : String → String → String)
    (originalText : String) :
    (Frontend.processFullTranslation callSecureBackend originalText
      .toJapanese).english = originalText ∧
    (Frontend.processFullTranslation callSecureBackend originalText
      .toJapanese).japanese = (callSecureBackend originalText "toJapanese").trim ∧
    (Frontend.processFullTranslation callSecureBackend originalText
      .toJapanese).cantonese
      = (callSecureBackend (callSecureBackend originalText "toJapanese")
          "toCantonese").trim :=
  ⟨rfl, rfl, rfl⟩

/-- Claim C5: an audio buffer below the smallest length-bucket threshold
(50000 bytes in the old revision, 30000 in the OpenAI revision) makes the
Heuristic stage select only from the short-phrase pool of that revision,
never from its medium or long pools. -/
theorem c5_short_bucket_short_pool (audioLength k : Nat) :
    (audioLength < 50000 →
      Api.SpeechOld.heuristicTranscription audioLength k
        ∈ Api.SpeechOld.shortPhrases ∧
      Api.SpeechOld.heuristicTranscription audioLength k
        ∉ Api.SpeechOld.mediumPhrases ∧
      Api.SpeechOld.heuristicTranscription audioLength k
        ∉ Api.SpeechOld.longPhrases) ∧
    (audioLength < 30000 →
      Api.SpeechOpenAI.heuristicTranscription audioLength k
        ∈ Api.SpeechOpenAI.shortPhrases ∧
      Api.SpeechOpenAI.heuristicTranscription audioLength k
        ∉ Api.SpeechOpenAI.mediumPhrases ∧
      Api.SpeechOpenAI.heuristicTranscription audioLength k
        ∉ Api.SpeechOpenAI.longPhrases) := by
  constructor
  · intro h
    have hsel : Api.SpeechOld.heuristicTranscription audioLength k
        = Api.selectPhrase Api.SpeechOld.shortPhrases k := by
      simp [Api.SpeechOld.heuristicTranscription, h]
    have hmem : Api.selectPhrase Api.SpeechOld.shortPhrases k
        ∈ Api.SpeechOld.shortPhrases := selectPhrase_mem _ k (by decide)
    have hdisj : ∀ s ∈ Api.SpeechOld.shortPhrases,
        s ∉ Api.SpeechOld.mediumPhrases ∧ s ∉ Api.SpeechOld.longPhrases := by
      decide
    exact ⟨hsel ▸ hmem, (hsel ▸ (hdisj _ hmem).1), (hsel ▸ (hdisj _ hmem).2)⟩
  · intro h
    have hsel : Api.SpeechOpenAI.heuristicTranscription audioLength k
        = Api.selectPhrase Api.SpeechOpenAI.shortPhrases k := by
      simp [Api.SpeechOpenAI.heuristicTranscription, h]
    have hmem : Api.selectPhrase Api.SpeechOpenAI.shortPhrases k
        ∈ Api.SpeechOpenAI.shortPhrases := selectPhrase_mem _ k (by decide)
    have hdisj : ∀ s ∈ Api.SpeechOpenAI.shortPhrases,
        s ∉ Api.SpeechOpenAI.mediumPhrases ∧ s ∉ Api.SpeechOpenAI.longPhrases := by
      decide
    exact ⟨hsel ▸ hmem, (hsel ▸ (hdisj _ hmem).1), (hsel ▸ (hdisj _ hmem).2)⟩

/-- Witness for C5: a 100-byte buffer falls in the short bucket of both
revisions and the drawn phrase lies in the respective short pools. -/
theorem c5_witness :
    (100 : Nat) < 30000 ∧
    Api.SpeechOld.heuristicTranscription 100 3 ∈ Api.SpeechOld.shortPhrases ∧
    Api.SpeechOpenAI.heuristicTranscription 100 3
      ∈ Api.SpeechOpenAI.shortPhrases :=
  ⟨by decide,
   ((c5_short_bucket_short_pool 100 3).1 (by decide)).1,
   ((c5_short_bucket_short_pool 100 3).2 (by decide)).1⟩

/-- Claim C9: an authenticated admin POST with action `reset` zeroes
`totalTranslations`, `totalSpeechRequests` and `estimatedCost`, stamps
`lastReset` with the current time, and leaves both configured daily
limits exactly as they were. -/
theorem c9_admin_reset_frame (adminSecret : String)
    (snapshot : Api.Admin.UsageStats → Nat → Json)
    (st : Api.Admin.UsageStats) (now : Nat) (req : Api.Admin.Req)
    (hm : req.method = "POST")
    (ha : req.authHeader = some ("Bearer " ++ adminSecret))
    (hact : req.action = some "reset") :
    (Api.Admin.handler adminSecret snapshot st now req).1.status = 200 ∧
    (Api.Admin.handler adminSecret snapshot st now req).2.totalTranslations = 0 ∧
    (Api.Admin.handler adminSecret snapshot st now req).2.totalSpeechRequests = 0 ∧
    (Api.Admin.handler adminSecret snapshot st now req).2.estimatedCost = 0 ∧
    (Api.Admin.handler adminSecret snapshot st now req).2.lastReset = now ∧
    (Api.Admin.handler adminSecret snapshot st now req).2.dailyLimits
      = st.dailyLimits := by
  simp [Api.Admin.handler, Api.Admin.adminCore, hm, ha, hact]

/-- Witness for C9 at concrete inputs. -/
theorem c9_witness :
    (Api.Admin.handler "admin-2024" (fun _ _ => Json.null)
      ⟨5, 6, (1 : ℚ) / 2, 100, ⟨1000, 100⟩⟩ 999
      ⟨"POST", some "Bearer admin-2024", some "reset", none, none⟩).2.totalTranslations
      = 0 ∧
    (Api.Admin.handler "admin-2024" (fun _ _ => Json.null)
      ⟨5, 6, (1 : ℚ) / 2, 100, ⟨1000, 100⟩⟩ 999
      ⟨"POST", some "Bearer admin-2024", some "reset", none, none⟩).2.estimatedCost
      = 0 ∧
    (Api.Admin.handler "admin-2024" (fun _ _ => Json.null)
      ⟨5, 6, (1 : ℚ) / 2, 100, ⟨1000, 100⟩⟩ 999
      ⟨"POST", some "Bearer admin-2024", some "reset", none, none⟩).2.lastReset
      = 999 ∧
    (Api.Admin.handler "admin-2024" (fun _ _ => Json.null)
      ⟨5, 6, (1 : ℚ) / 2, 100, ⟨1000, 100⟩⟩ 999
      ⟨"POST", some "Bearer admin-2024", some "reset", none, none⟩).2.dailyLimits
      = ⟨1000, 100⟩ := by
  have h := c9_admin_reset_frame "admin-2024" (fun _ _ => Json.null)
    ⟨5, 6, (1 : ℚ) / 2, 100, ⟨1000, 100⟩⟩ 999
    ⟨"POST", some "Bearer admin-2024", some "reset", none, none⟩ rfl rfl rfl
  exact ⟨h.2.1, h.2.2.2.1, h.2.2.2.2.1, h.2.2.2.2.2⟩

/-- Claim C10: an authenticated admin POST with action `updateLimits`
updates a stored limit only when the supplied value is truthy; a supplied
`0` (the falsy number) and an absent field both leave that limit
unchanged. -/
theorem c10_update_limits_truthy_only (adminSecret : String)
    (snapshot : Api.Admin.UsageStats → Nat → Json)
    (st : Api.Admin.UsageStats) (now : Nat) (req : Api.Admin.Req)
    (hm : req.method = "POST")
    (ha : req.authHeader = some ("Bearer " ++ adminSecret))
    (hact : req.action = some "updateLimits") :
    (req.maxTranslations = none →
      (Api.Admin.handler adminSecret snapshot st now req).2.dailyLimits.maxTranslations
        = st.dailyLimits.maxTranslations) ∧
    (req.maxTranslations = some 0 →
      (Api.Admin.handler adminSecret snapshot st now req).2.dailyLimits.maxTranslations
        = st.dailyLimits.maxTranslations) ∧
    (∀ v : Int, v ≠ 0 → req.maxTranslations = some v →
      (Api.Admin.handler adminSecret snapshot st now req).2.dailyLimits.maxTranslations
        = v) ∧
    (req.maxSpeechRequests = none →
      (Api.Admin.handler adminSecret snapshot st now req).2.dailyLimits.maxSpeechRequests
        = st.dailyLimits.maxSpeechRequests) ∧
    (req.maxSpeechRequests = some 0 →
      (Api.Admin.handler adminSecret snapshot st now req).2.dailyLimits.maxSpeechRequests
        = st.dailyLimits.maxSpeechRequests) ∧
    (∀ v : Int, v ≠ 0 → req.maxSpeechRequests = some v →
      (Api.Admin.handler adminSecret snapshot st now req).2.dailyLimits.maxSpeechRequests
        = v) := by
  refine ⟨fun h => ?_, fun h => ?_, fun v hv h => ?_,
          fun h => ?_, fun h => ?_, fun v hv h => ?_⟩ <;>
    simp [Api.Admin.handler, Api.Admin.adminCore, Api.Admin.truthyInt,
          hm, ha, hact, h] <;>
    split <;>
    simp_all [Api.Admin.truthyInt]

/-- Witness for C10: supplied 0 for translations leaves 1000 in place
while a truthy 77 for speech overwrites 100. -/
theorem c10_witness :
    (Api.Admin.handler "admin-2024" (fun _ _ => Json.null)
      ⟨5, 6, (1 : ℚ) / 2, 100, ⟨1000, 100⟩⟩ 999
      ⟨"POST", some "Bearer admin-2024", some "updateLimits", some 0, some 77⟩).2.dailyLimits.maxTranslations
      = 1000 ∧
    (Api.Admin.handler "admin-2024" (fun _ _ => Json.null)
      ⟨5, 6, (1 : ℚ) / 2, 100, ⟨1000, 100⟩⟩ 999
      ⟨"POST", some "Bearer admin-2024", some "updateLimits", some 0, some 77⟩).2.dailyLimits.maxSpeechRequests
      = 77 := by
  have h := c10_update_limits_truthy_only "admin-2024" (fun _ _ => Json.null)
    ⟨5, 6, (1 : ℚ) / 2, 100, ⟨1000, 100⟩⟩ 999
    ⟨"POST", some "Bearer admin-2024", some "updateLimits", some 0, some 77⟩
    rfl rfl rfl
  exact ⟨h.2.1 rfl, h.2.2.2.2.2 77 (by decide) rfl⟩

/-- Claim C6: a POST `/api/translate` with body text `hello` and mode
`toJapanese` from a fresh rate-limit window, under its daily ceiling,
with no OpenRouter API key configured, is answered 500 with
`success:false` and the exact missing-key error message. -/
theorem c6_missing_api_key_500 (upstream : String → Api.Translate.UpstreamResult)
    (ip : String) (now : Nat) (today : String) (count maxDaily : Nat)
    (hd : count + 1 ≤ maxDaily) :
    (Api.Translate.handler none upstream
      ⟨[], ⟨count, today, maxDaily⟩⟩ now today
      ⟨"POST", ip, some "hello", some "toJapanese"⟩).1.status = 500 ∧
    (Api.Translate.handler none upstream
      ⟨[], ⟨count, today, maxDaily⟩⟩ now today
      ⟨"POST", ip, some "hello", some "toJapanese"⟩).1.body.getField "success"
      = some (.bool false) ∧
    (Api.Translate.handler none upstream
      ⟨[], ⟨count, today, maxDaily⟩⟩ now today
      ⟨"POST", ip, some "hello", some "toJapanese"⟩).1.body.getField "error"
      = some (.str "OpenRouter API key not configured in environment variables") := by
  have hgate : Api.rateLimitGate 10 Api.Translate.rateLimitMsg ([] : Api.RLStore) ip now
      = (Api.RLStore.set [] ip ⟨1, now + Api.windowMs⟩, none) := by
    simp [Api.rateLimitGate, Api.RLStore.lookup, List.lookup]
  have hsusp : Api.Translate.suspiciousText "hello" = false := by decide
  have hnd : ¬ (count + 1 > maxDaily) := by omega
  have hlen : ¬ ((500 : Nat) < "hello".length) := by decide
  simp [Api.Translate.handler, Api.Translate.translateCore, hgate,
        Api.truthyStr, Api.resetDailyUsage, hsusp, hnd, hlen, Json.getField,
        List.lookup]

/-- Witness for C6 at fully concrete inputs. -/
theorem c6_witness :
    (Api.Translate.handler none (fun _ => .netError)
      ⟨[], ⟨0, "Tue Jan 02 2024", 500⟩⟩ 0 "Tue Jan 02 2024"
      ⟨"POST", "1.2.3.4", some "hello", some "toJapanese"⟩).1.status = 500 ∧
    (Api.Translate.handler none (fun _ => .netError)
      ⟨[], ⟨0, "Tue Jan 02 2024", 500⟩⟩ 0 "Tue Jan 02 2024"
      ⟨"POST", "1.2.3.4", some "hello", some "toJapanese"⟩).1.body.getField "error"
      = some (.str "OpenRouter API key not configured in environment variables") := by
  have h := c6_missing_api_key_500 (fun _ => .netError) "1.2.3.4" 0
    "Tue Jan 02 2024" 0 500 (by decide)
  exact ⟨h.1, h.2.2⟩

/-- Claim C8: in `/api/translate`, every request that passes the method,
rate-limit, input-validation and content-filter checks increments the
daily counter by one, whatever happens afterwards: the increment is the
same whether the request is then rejected 429 over the daily ceiling,
fails 500 for a missing API key, fails 500 upstream, or succeeds. -/
theorem c8_daily_counter_counts_failures (apiKeyEnv : Option String)
    (upstream : String → Api.Translate.UpstreamResult)
    (st : Api.Translate.State) (now : Nat) (today : String)
    (req : Api.Translate.Req) (t m : String)
    (hm : req.method = "POST")
    (hgate : (Api.rateLimitGate 10 Api.Translate.rateLimitMsg
      st.rateLimitStore req.ip now).2 = none)
    (htext : req.text = some t) (ht : t ≠ "")
    (hlen : ¬ (500 < t.length))
    (hmode : req.mode = some m)
    (hmem : (["toJapanese", "toCantonese", "toEnglish"].contains m) = true)
    (hsusp : Api.Translate.suspiciousText t = false) :
    (Api.Translate.handler apiKeyEnv upstream st now today req).2.dailyUsage.translations
      = (Api.resetDailyUsage st.dailyUsage today).translations + 1 := by
  obtain ⟨rls, hrls⟩ : ∃ r, Api.rateLimitGate 10 Api.Translate.rateLimitMsg
      st.rateLimitStore req.ip now = (r, none) :=
    ⟨(Api.rateLimitGate 10 Api.Translate.rateLimitMsg
        st.rateLimitStore req.ip now).1, by rw [← hgate]⟩
  simp only [Api.Translate.handler, Api.Translate.translateCore, hrls,
             hm, htext, hmode, Api.truthyStr]
  have hdisj : m = "toJapanese" ∨ m = "toCantonese" ∨ m = "toEnglish" := by
    simpa [List.contains] using hmem
  rcases hdisj with h | h | h <;> subst h <;>
    simp [ht, hlen, hsusp] <;>
    (split
     · rfl
     · split
       · rfl
       · split <;> rfl)

/-- Witness for C8: with no API key configured the request fails 500, yet
the daily counter has still advanced from 0 to 1. -/
theorem c8_witness :
    (Api.Translate.handler none (fun _ => .netError)
      ⟨[], ⟨0, "Tue Jan 02 2024", 500⟩⟩ 0 "Tue Jan 02 2024"
      ⟨"POST", "1.2.3.4", some "hello", some "toJapanese"⟩).2.dailyUsage.translations
      = (Api.resetDailyUsage ⟨0, "Tue Jan 02 2024", 500⟩
          "Tue Jan 02 2024").translations + 1 :=
  c8_daily_counter_counts_failures none (fun _ => .netError)
    ⟨[], ⟨0, "Tue Jan 02 2024", 500⟩⟩ 0 "Tue Jan 02 2024"
    ⟨"POST", "1.2.3.4", some "hello", some "toJapanese"⟩ "hello" "toJapanese"
    rfl rfl rfl (by decide) (by decide) rfl (by decide) (by decide)

/-- Claim C1: a speech-to-text POST that passes the pre-checks (auth, per
minute rate limit, daily limit) and reaches the Heuristic stage (the real
transcription attempt failed or came back blank) is always answered
HTTP 200 with `success:true` and a non-empty transcription; only a
missing (falsy) audio payload is answered 400, before the fallback chain
starts.  Both the old secured revision and the OpenAI-variant revision
are covered. -/
theorem c1_pipeline_never_errors_after_heuristic (apiSecret : String)
    (hf : Api.SpeechOld.HFResult) (decodeBase64 : String → List Nat) (k : Nat)
    (intensity : List Nat → Json) (st : Api.SpeechOld.State) (now : Nat)
    (today : String) (req : Api.SpeechOld.Req)
    (apiKeyEnv : Option String) (oai : Api.SpeechOpenAI.OpenAIResult)
    (req2 : Api.SpeechOpenAI.Req)
    (hm : req.method = "POST")
    (hauth : req.authHeader = some ("Bearer " ++ apiSecret))
    (hgate : (Api.rateLimitGate 5 Api.SpeechOld.speechRateLimitMsg
      st.rateLimitStore req.ip now).2 = none)
    (hdaily : ¬ ((Api.resetDailySpeech st.dailySpeechUsage today).maxDailySpeechRequests
      < (Api.resetDailySpeech st.dailySpeechUsage today).requests + 1))
    (hhf : hf = .failed ∨ ∃ s, hf = .ok s ∧ s.trim = "")
    (hm2 : req2.method = "POST")
    (hoai : oai = .failed ∨ ∃ s, oai = .ok s ∧ s.trim = "") :
    (Api.truthyStr req.audioData = true →
      (Api.SpeechOld.handler apiSecret hf decodeBase64 k intensity
        st now today req).1.status = 200 ∧
      (Api.SpeechOld.handler apiSecret hf decodeBase64 k intensity
        st now today req).1.body.getField "success" = some (.bool true) ∧
      ∃ s, (Api.SpeechOld.handler apiSecret hf decodeBase64 k intensity
        st now today req).1.body.getField "text" = some (.str s) ∧ s ≠ "") ∧
    (Api.truthyStr req.audioData = false →
      (Api.SpeechOld.handler apiSecret hf decodeBase64 k intensity
        st now today req).1.status = 400 ∧
      (Api.SpeechOld.handler apiSecret hf decodeBase64 k intensity
        st now today req).1.body.getField "error"
        = some (.str "No audio data provided") ∧
      (Api.SpeechOld.handler apiSecret hf decodeBase64 k intensity
        st now today req).1.body.getField "success" = some (.bool false)) ∧
    (Api.truthyStr req2.audioData = true →
      (Api.SpeechOpenAI.handler apiKeyEnv oai decodeBase64 k intensity
        req2).status = 200 ∧
      (Api.SpeechOpenAI.handler apiKeyEnv oai decodeBase64 k intensity
        req2).body.getField "success" = some (.bool true) ∧
      ∃ s, (Api.SpeechOpenAI.handler apiKeyEnv oai decodeBase64 k intensity
        req2).body.getField "text" = some (.str s) ∧ s ≠ "") ∧
    (Api.truthyStr req2.audioData = false →
      (Api.SpeechOpenAI.handler apiKeyEnv oai decodeBase64 k intensity
        req2).status = 400 ∧
      (Api.SpeechOpenAI.handler apiKeyEnv oai decodeBase64 k intensity
        req2).body.getField "error" = some (.str "No audio data provided")) := by
  obtain ⟨rls, hrls⟩ : ∃ r, Api.rateLimitGate 5 Api.SpeechOld.speechRateLimitMsg
      st.rateLimitStore req.ip now = (r, none) :=
    ⟨(Api.rateLimitGate 5 Api.SpeechOld.speechRateLimitMsg
        st.rateLimitStore req.ip now).1, by rw [← hgate]⟩
  refine ⟨fun haudio => ?_, fun haudio => ?_, fun haudio => ?_, fun haudio => ?_⟩
  · simp only [Api.SpeechOld.handler, Api.SpeechOld.speechCore, hm, hauth, hrls]
    rcases hhf with h | ⟨s, h, hs⟩ <;> subst h
    · simp [haudio, hdaily, Json.getField, List.lookup]
      exact heuristicOld_ne_blank _ _
    · simp [haudio, hdaily, hs, Json.getField, List.lookup]
      exact heuristicOld_ne_blank _ _
  · simp only [Api.SpeechOld.handler, Api.SpeechOld.speechCore, hm, hauth, hrls]
    simp [haudio, hdaily, Json.getField, List.lookup]
  · simp only [Api.SpeechOpenAI.handler, Api.SpeechOpenAI.speechCore, hm2]
    rcases hoai with h | ⟨s, h, hs⟩ <;> subst h
    · simp [haudio, Json.getField, List.lookup]
      exact heuristicOpenAI_ne_blank _ _
    · simp [haudio, hs, Json.getField, List.lookup]
      exact heuristicOpenAI_ne_blank _ _
  · simp only [Api.SpeechOpenAI.handler, Api.SpeechOpenAI.speechCore, hm2]
    simp [haudio, Json.getField, List.lookup]

/-- Witness for C1: concrete requests with a failed real-API attempt get
a 200 demo transcription, and a missing payload gets a 400. -/
theorem c1_witness :
    (Api.SpeechOld.handler "secret" .failed (fun _ => [1, 2, 3]) 0
      (fun _ => Json.null) ⟨[], ⟨0, "Tue Jan 02 2024", 50⟩⟩ 0 "Tue Jan 02 2024"
      ⟨"POST", some "Bearer secret", "1.2.3.4", some "QUJD", some "audio/wav"⟩).1.status
      = 200 ∧
    (Api.SpeechOld.handler "secret" .failed (fun _ => [1, 2, 3]) 0
      (fun _ => Json.null) ⟨[], ⟨0, "Tue Jan 02 2024", 50⟩⟩ 0 "Tue Jan 02 2024"
      ⟨"POST", some "Bearer secret", "1.2.3.4", none, some "audio/wav"⟩).1.status
      = 400 ∧
    (Api.SpeechOpenAI.handler none .failed (fun _ => [1, 2, 3]) 0
      (fun _ => Json.null)
      ⟨"POST", some "QUJD", some "audio/wav"⟩).status = 200 := by
  have h := c1_pipeline_never_errors_after_heuristic "secret" .failed
    (fun _ => [1, 2, 3]) 0 (fun _ => Json.null)
    ⟨[], ⟨0, "Tue Jan 02 2024", 50⟩⟩ 0 "Tue Jan 02 2024"
    ⟨"POST", some "Bearer secret", "1.2.3.4", some "QUJD", some "audio/wav"⟩
    none .failed ⟨"POST", some "QUJD", some "audio/wav"⟩
    rfl rfl rfl (by decide) (Or.inl rfl) rfl (Or.inl rfl)
  have h' := c1_pipeline_never_errors_after_heuristic "secret" .failed
    (fun _ => [1, 2, 3]) 0 (fun _ => Json.null)
    ⟨[], ⟨0, "Tue Jan 02 2024", 50⟩⟩ 0 "Tue Jan 02 2024"
    ⟨"POST", some "Bearer secret", "1.2.3.4", none, some "audio/wav"⟩
    none .failed ⟨"POST", some "QUJD", some "audio/wav"⟩
    rfl rfl rfl (by decide) (Or.inl rfl) rfl (Or.inl rfl)
  exact ⟨(h.1 (by decide)).1, (h'.2.1 (by decide)).1, (h.2.2.1 (by decide)).1⟩

/-- Claim C2: for a caller key with no live entry, a run of `maxRequests`
requests inside the 60-second window (the threshold is 10 in
`/api/translate` and 5 in `/api/speech-to-text`, which invoke this gate)
is allowed in full, and the request immediately exceeding the threshold,
strictly within the window, is rejected with a 429 whose body carries
`retryAfter` strictly greater than zero. -/
theorem c2_quota_gate_threshold (maxRequests : Nat) (errMsg key : String)
    (t0 : Nat) (ts : List Nat) (t : Nat) (st0 : Api.RLStore)
    (h0 : st0.lookup key = none)
    (hts : ∀ u ∈ ts, u ≤ t0 + Api.windowMs)
    (hlen : ts.length + 1 = maxRequests)
    (ht : t < t0 + Api.windowMs) :
    (Api.runGate maxRequests errMsg key (t0 :: (ts ++ [t])) st0).1
      = List.replicate maxRequests none
        ++ [some (429, Json.obj
            [("error", .str errMsg),
             ("retryAfter",
              .num ((t0 + Api.windowMs - t + 999) / 1000 : Nat))])] ∧
    0 < (t0 + Api.windowMs - t + 999) / 1000 := by
  have hpos : 0 < (t0 + Api.windowMs - t + 999) / 1000 := by
    have h1000 : 1000 ≤ t0 + Api.windowMs - t + 999 := by omega
    exact Nat.div_pos h1000 (by omega)
  refine ⟨?_, hpos⟩
  subst hlen
  have hstep0 : Api.rateLimitGate (ts.length + 1) errMsg st0 key t0
      = (st0.set key ⟨1, t0 + Api.windowMs⟩, none) := by
    simp [Api.rateLimitGate, h0]
  have hmid := runGate_under_threshold (ts.length + 1) errMsg key
    (t0 + Api.windowMs) ts 1 (st0.set key ⟨1, t0 + Api.windowMs⟩)
    (lookup_set _ _ _) hts (by omega)
  have hlk := hmid.2
  have hone : (1 : Nat) + ts.length = ts.length + 1 := by omega
  rw [hone] at hlk
  have hnt : ¬ (t0 + Api.windowMs < t) := by omega
  have hgt : ts.length + 1 < ts.length + 1 + 1 := by omega
  have hfin : Api.rateLimitGate (ts.length + 1) errMsg
      (Api.runGate (ts.length + 1) errMsg key ts
        (st0.set key ⟨1, t0 + Api.windowMs⟩)).2 key t
      = ((Api.runGate (ts.length + 1) errMsg key ts
           (st0.set key ⟨1, t0 + Api.windowMs⟩)).2.set key
           ⟨ts.length + 1 + 1, t0 + Api.windowMs⟩,
         some (429, Json.obj
           [("error", .str errMsg),
            ("retryAfter",
             .num ((t0 + Api.windowMs - t + 999) / 1000 : Nat))])) := by
    simp only [Api.rateLimitGate, hlk, if_neg hnt, if_pos hgt]
  simp only [Api.runGate, hstep0, runGate_append, hfin, hmid.1,
             List.replicate_succ, List.cons_append, List.nil_append]

/-- Witness for C2, the spec's own scenario: six speech requests from one
IP inside one minute; the first five pass, the sixth is rejected 429 with
`retryAfter` of 60 seconds. -/
theorem c2_witness :
    (Api.runGate 5 Api.SpeechOld.speechRateLimitMsg "1.2.3.4"
      [0, 1, 2, 3, 4, 5] []).1
      = List.replicate 5 none
        ++ [some (429, Json.obj
            [("error", .str Api.SpeechOld.speechRateLimitMsg),
             ("retryAfter", .num ((0 + Api.windowMs - 5 + 999) / 1000 : Nat))])] ∧
    0 < ((0 + Api.windowMs - 5 + 999) / 1000 : Nat) :=
  c2_quota_gate_threshold 5 Api.SpeechOld.speechRateLimitMsg "1.2.3.4"
    0 [1, 2, 3, 4] 5 [] rfl (by decide) rfl (by decide)

/-- Counterexample to C7 as stated: the unsecured translate variant is an
endpoint of the application that never calls `setHeader` and has no
OPTIONS branch, so an OPTIONS preflight is answered 405 without the
permissive CORS header. -/
theorem c7_counterexample :
    (Api.SimpleTranslate.handler (fun _ => .netError)
      ⟨"OPTIONS", "1.2.3.4", none, none⟩).status = 405 ∧
    ("Access-Control-Allow-Origin", "*")
      ∉ (Api.SimpleTranslate.handler (fun _ => .netError)
          ⟨"OPTIONS", "1.2.3.4", none, none⟩).headers := by
  constructor
  · rfl
  · simp [Api.SimpleTranslate.handler]

/-- Claim C7 as amended: every HTTP endpoint of the application other
than the unsecured translate variant sets `Access-Control-Allow-Origin: *`
on every response and answers an OPTIONS preflight with status 200; the
unsecured variant does neither. -/
theorem c7_cors_amended
    (apiKeyEnv : Option String) (upstream : String → Api.Translate.UpstreamResult)
    (tst : Api.Translate.State) (now : Nat) (today : String)
    (treq : Api.Translate.Req)
    (apiSecret : String) (hf : Api.SpeechOld.HFResult)
    (decodeBase64 : String → List Nat) (k : Nat) (intensity : List Nat → Json)
    (sst : Api.SpeechOld.State) (sreq : Api.SpeechOld.Req)
    (oKey : Option String) (oai : Api.SpeechOpenAI.OpenAIResult)
    (oreq : Api.SpeechOpenAI.Req)
    (adminSecret : String) (snapshot : Api.Admin.UsageStats → Nat → Json)
    (ast : Api.Admin.UsageStats) (areq : Api.Admin.Req)
    (file : Option String) (mmethod : String) :
    (("Access-Control-Allow-Origin", "*")
      ∈ (Api.Translate.handler apiKeyEnv upstream tst now today treq).1.headers ∧
     (treq.method = "OPTIONS" →
      (Api.Translate.handler apiKeyEnv upstream tst now today treq).1.status = 200)) ∧
    (("Access-Control-Allow-Origin", "*")
      ∈ (Api.SpeechOld.handler apiSecret hf decodeBase64 k intensity
          sst now today sreq).1.headers ∧
     (sreq.method = "OPTIONS" →
      (Api.SpeechOld.handler apiSecret hf decodeBase64 k intensity
        sst now today sreq).1.status = 200)) ∧
    (("Access-Control-Allow-Origin", "*")
      ∈ (Api.SpeechOpenAI.handler oKey oai decodeBase64 k intensity oreq).headers ∧
     (oreq.method = "OPTIONS" →
      (Api.SpeechOpenAI.handler oKey oai decodeBase64 k intensity oreq).status = 200)) ∧
    (("Access-Control-Allow-Origin", "*")
      ∈ (Api.Admin.handler adminSecret snapshot ast now areq).1.headers ∧
     (areq.method = "OPTIONS" →
      (Api.Admin.handler adminSecret snapshot ast now areq).1.status = 200)) ∧
    (("Access-Control-Allow-Origin", "*")
      ∈ (Api.Manifest.handler file mmethod).headers ∧
     (mmethod = "OPTIONS" → (Api.Manifest.handler file mmethod).status = 200)) := by
  refine ⟨⟨?_, fun h => ?_⟩, ⟨?_, fun h => ?_⟩, ⟨?_, fun h => ?_⟩,
          ⟨?_, fun h => ?_⟩, ⟨?_, fun h => ?_⟩⟩
  · simp [Api.Translate.handler, Api.Translate.corsHeaders]
  · simp [Api.Translate.handler, Api.Translate.translateCore, h]
  · simp [Api.SpeechOld.handler, Api.SpeechOld.corsHeaders]
  · simp [Api.SpeechOld.handler, Api.SpeechOld.speechCore, h]
  · simp [Api.SpeechOpenAI.handler, Api.SpeechOpenAI.corsHeaders]
  · simp [Api.SpeechOpenAI.handler, Api.SpeechOpenAI.speechCore, h]
  · simp [Api.Admin.handler, Api.Admin.corsHeaders]
  · simp [Api.Admin.handler, Api.Admin.adminCore, h]
  · simp [Api.Manifest.handler, Api.Manifest.manifestHeaders]
  · simp [Api.Manifest.handler, Api.Manifest.manifestCore, h]

/-- Witness for the amended C7 at concrete OPTIONS requests. -/
theorem c7_witness :
    (Api.Translate.handler none (fun _ => .netError)
      ⟨[], ⟨0, "d", 500⟩⟩ 0 "d" ⟨"OPTIONS", "ip", none, none⟩).1.status = 200 ∧
    (Api.SpeechOld.handler "s" .failed (fun _ => []) 0 (fun _ => Json.null)
      ⟨[], ⟨0, "d", 50⟩⟩ 0 "d"
      ⟨"OPTIONS", none, "ip", none, none⟩).1.status = 200 ∧
    (Api.SpeechOpenAI.handler none .failed (fun _ => []) 0 (fun _ => Json.null)
      ⟨"OPTIONS", none, none⟩).status = 200 ∧
    (Api.Admin.handler "a" (fun _ _ => Json.null) ⟨0, 0, 0, 0, ⟨1000, 100⟩⟩ 0
      ⟨"OPTIONS", none, none, none, none⟩).1.status = 200 ∧
    (Api.Manifest.handler none "OPTIONS").status = 200 := by
  have h := c7_cors_amended none (fun _ => .netError) ⟨[], ⟨0, "d", 500⟩⟩ 0 "d"
    ⟨"OPTIONS", "ip", none, none⟩ "s" .failed (fun _ => []) 0
    (fun _ => Json.null) ⟨[], ⟨0, "d", 50⟩⟩ ⟨"OPTIONS", none, "ip", none, none⟩
    none .failed ⟨"OPTIONS", none, none⟩ "a" (fun _ _ => Json.null)
    ⟨0, 0, 0, 0, ⟨1000, 100⟩⟩ ⟨"OPTIONS", none, none, none, none⟩ none "OPTIONS"
  exact ⟨h.1.2 rfl, h.2.1.2 rfl, h.2.2.1.2 rfl, h.2.2.2.1.2 rfl, h.2.2.2.2.2 rfl⟩
